import Mathlib

/-
Verification of the Vulkan framebuffer / render-pass module
(Common/GPU/Vulkan/VulkanFramebuffer.{h,cpp}).

The development shallowly embeds the module: enums become Lean inductive
types, Vulkan bitmask constants keep their numeric values as Nat, GPU
handles are Nat identifiers handed out by an explicit NativeState counter
(a null handle is Option.none), and the native create calls record the
create-info structures they receive so that theorems can talk about what
was constructed. Logging and debug naming are modelled as event lists.
-/

/- Vulkan scalar constants, with their real numeric values. -/

def VK_FORMAT_R8G8B8A8_UNORM : Nat := 37

def VK_IMAGE_ASPECT_COLOR_BIT : Nat := 1
def VK_IMAGE_ASPECT_DEPTH_BIT : Nat := 2
def VK_IMAGE_ASPECT_STENCIL_BIT : Nat := 4

def VK_ACCESS_INPUT_ATTACHMENT_READ_BIT : Nat := 0x10
def VK_ACCESS_COLOR_ATTACHMENT_READ_BIT : Nat := 0x80
def VK_ACCESS_COLOR_ATTACHMENT_WRITE_BIT : Nat := 0x100
def VK_ACCESS_DEPTH_STENCIL_ATTACHMENT_WRITE_BIT : Nat := 0x400
def VK_ACCESS_TRANSFER_WRITE_BIT : Nat := 0x1000

def VK_PIPELINE_STAGE_TOP_OF_PIPE_BIT : Nat := 0x1
def VK_PIPELINE_STAGE_FRAGMENT_SHADER_BIT : Nat := 0x80
def VK_PIPELINE_STAGE_EARLY_FRAGMENT_TESTS_BIT : Nat := 0x100
def VK_PIPELINE_STAGE_LATE_FRAGMENT_TESTS_BIT : Nat := 0x200
def VK_PIPELINE_STAGE_COLOR_ATTACHMENT_OUTPUT_BIT : Nat := 0x400
def VK_PIPELINE_STAGE_TRANSFER_BIT : Nat := 0x1000

def VK_DEPENDENCY_BY_REGION_BIT : Nat := 1

def VK_SUBPASS_EXTERNAL : Nat := 4294967295

/- Image layouts used anywhere near this module (a strict superset of the
three the image factory supports, so that the default/abort case of the
factory switch is meaningful). -/

inductive VkImageLayout where
  | UNDEFINED
  | GENERAL
  | COLOR_ATTACHMENT_OPTIMAL
  | DEPTH_STENCIL_ATTACHMENT_OPTIMAL
  | SHADER_READ_ONLY_OPTIMAL
  | TRANSFER_SRC_OPTIMAL
  | TRANSFER_DST_OPTIMAL
  | PRESENT_SRC_KHR
  deriving DecidableEq, Repr

inductive VkImageViewType where
  | D2
  | D2_ARRAY
  deriving DecidableEq, Repr

/- VulkanFramebuffer.h: enum class RenderPassType with bit flags
DEFAULT = 0, HAS_DEPTH = 1, COLOR_INPUT = 2, MULTIVIEW = 4, BACKBUFFER = 8,
TYPE_COUNT = 9.  Values are used as indices into arrays of size TYPE_COUNT,
so the tag is a Fin 9 with the C++ numeric values. -/

abbrev RenderPassType := Fin 9

def RenderPassType.DEFAULT : RenderPassType := 0
def RenderPassType.HAS_DEPTH : RenderPassType := 1
def RenderPassType.COLOR_INPUT : RenderPassType := 2
def RenderPassType.MULTIVIEW : RenderPassType := 4
def RenderPassType.BACKBUFFER : RenderPassType := 8

/- VulkanFramebuffer.h lines 89-99: the three predicates over the tag. -/

def RenderPassTypeHasDepth (t : RenderPassType) : Bool :=
  (t.val &&& RenderPassType.HAS_DEPTH.val != 0) || decide (t = RenderPassType.BACKBUFFER)

def RenderPassTypeHasInput (t : RenderPassType) : Bool :=
  t.val &&& RenderPassType.COLOR_INPUT.val != 0

def RenderPassTypeHasMultiView (t : RenderPassType) : Bool :=
  t.val &&& RenderPassType.MULTIVIEW.val != 0

/- VulkanFramebuffer.h: load/store action enums and the RPKey. -/

inductive VKRRenderPassLoadAction where
  | KEEP
  | CLEAR
  | DONT_CARE
  deriving DecidableEq, Repr

inductive VKRRenderPassStoreAction where
  | STORE
  | DONT_CARE
  deriving DecidableEq, Repr

structure RPKey where
  colorLoadAction : VKRRenderPassLoadAction
  depthLoadAction : VKRRenderPassLoadAction
  stencilLoadAction : VKRRenderPassLoadAction
  colorStoreAction : VKRRenderPassStoreAction
  depthStoreAction : VKRRenderPassStoreAction
  stencilStoreAction : VKRRenderPassStoreAction
  deriving DecidableEq, Repr

/- VulkanFramebuffer.cpp lines 209-224. -/

inductive VkAttachmentLoadOp where
  | LOAD
  | CLEAR
  | DONT_CARE
  deriving DecidableEq, Repr

inductive VkAttachmentStoreOp where
  | STORE
  | DONT_CARE
  deriving DecidableEq, Repr

def ConvertLoadAction : VKRRenderPassLoadAction → VkAttachmentLoadOp
  | .CLEAR => .CLEAR
  | .KEEP => .LOAD
  | .DONT_CARE => .DONT_CARE

def ConvertStoreAction : VKRRenderPassStoreAction → VkAttachmentStoreOp
  | .STORE => .STORE
  | .DONT_CARE => .DONT_CARE

/- Environment values consumed from the VulkanContext collaborator. -/

structure DeviceEnv where
  swapchainFormat : Nat
  preferredDepthStencilFormat : Nat
  debugUtils : Bool
  deriving DecidableEq, Repr

/- The structures handed to vkCreateRenderPass, as filled in by
CreateRenderPass (VulkanFramebuffer.cpp lines 229-343). -/

structure AttachmentDescription where
  format : Nat
  samples : Nat
  loadOp : VkAttachmentLoadOp
  storeOp : VkAttachmentStoreOp
  stencilLoadOp : VkAttachmentLoadOp
  stencilStoreOp : VkAttachmentStoreOp
  initialLayout : VkImageLayout
  finalLayout : VkImageLayout
  deriving DecidableEq, Repr

structure AttachmentReference where
  attachment : Nat
  layout : VkImageLayout
  deriving DecidableEq, Repr

structure SubpassDescription where
  inputAttachments : List AttachmentReference
  colorAttachments : List AttachmentReference
  depthStencilAttachment : Option AttachmentReference
  deriving DecidableEq, Repr

structure SubpassDependency where
  srcSubpass : Nat
  dstSubpass : Nat
  srcStageMask : Nat
  dstStageMask : Nat
  srcAccessMask : Nat
  dstAccessMask : Nat
  dependencyFlags : Nat
  deriving DecidableEq, Repr

/- VkRenderPassMultiviewCreateInfoKHR as filled in at lines 299-310:
subpassCount = 1 with pViewMasks pointing at one mask, correlationMaskCount
= 1 with the same mask, dependencyCount = 0, and pViewOffsets pointing at
one zero int. -/
structure MultiviewCreateInfo where
  viewMasks : List Nat
  correlationMasks : List Nat
  dependencyCount : Nat
  viewOffsetValue : Int
  deriving DecidableEq, Repr

structure RenderPassCreateInfo where
  attachments : List AttachmentDescription
  subpasses : List SubpassDescription
  dependencies : List SubpassDependency
  multiview : Option MultiviewCreateInfo
  deriving DecidableEq, Repr

/- VulkanFramebuffer.cpp lines 229-343: CreateRenderPass, as a pure
function from the environment, the key and the pass type to the create
info handed to the native call. -/
def CreateRenderPass (env : DeviceEnv) (key : RPKey) (rpType : RenderPassType) :
    RenderPassCreateInfo :=
  let selfDependency := RenderPassTypeHasInput rpType
  let isBackbuffer := decide (rpType = RenderPassType.BACKBUFFER)
  let hasDepth := RenderPassTypeHasDepth rpType
  let multiview := RenderPassTypeHasMultiView rpType
  let att0 : AttachmentDescription := {
    format := if isBackbuffer then env.swapchainFormat else VK_FORMAT_R8G8B8A8_UNORM
    samples := 1
    loadOp := ConvertLoadAction key.colorLoadAction
    storeOp := ConvertStoreAction key.colorStoreAction
    stencilLoadOp := .DONT_CARE
    stencilStoreOp := .DONT_CARE
    initialLayout := if isBackbuffer then .UNDEFINED else .COLOR_ATTACHMENT_OPTIMAL
    finalLayout := if isBackbuffer then .PRESENT_SRC_KHR else .COLOR_ATTACHMENT_OPTIMAL }
  let att1 : AttachmentDescription := {
    format := env.preferredDepthStencilFormat
    samples := 1
    loadOp := ConvertLoadAction key.depthLoadAction
    storeOp := ConvertStoreAction key.depthStoreAction
    stencilLoadOp := ConvertLoadAction key.stencilLoadAction
    stencilStoreOp := ConvertStoreAction key.stencilStoreAction
    initialLayout := .DEPTH_STENCIL_ATTACHMENT_OPTIMAL
    finalLayout := .DEPTH_STENCIL_ATTACHMENT_OPTIMAL }
  let color_reference : AttachmentReference := {
    attachment := 0
    layout := if selfDependency then .GENERAL else .COLOR_ATTACHMENT_OPTIMAL }
  let depth_reference : AttachmentReference := {
    attachment := 1
    layout := .DEPTH_STENCIL_ATTACHMENT_OPTIMAL }
  let subpass : SubpassDescription := {
    inputAttachments := if selfDependency then [color_reference] else []
    colorAttachments := [color_reference]
    depthStencilAttachment := if hasDepth then some depth_reference else none }
  let backbufferDep : SubpassDependency := {
    srcSubpass := VK_SUBPASS_EXTERNAL
    dstSubpass := 0
    srcStageMask := VK_PIPELINE_STAGE_COLOR_ATTACHMENT_OUTPUT_BIT
    dstStageMask := VK_PIPELINE_STAGE_COLOR_ATTACHMENT_OUTPUT_BIT
    srcAccessMask := 0
    dstAccessMask := VK_ACCESS_COLOR_ATTACHMENT_READ_BIT ||| VK_ACCESS_COLOR_ATTACHMENT_WRITE_BIT
    dependencyFlags := 0 }
  let selfDep : SubpassDependency := {
    srcSubpass := 0
    dstSubpass := 0
    srcStageMask := VK_PIPELINE_STAGE_COLOR_ATTACHMENT_OUTPUT_BIT
    dstStageMask := VK_PIPELINE_STAGE_FRAGMENT_SHADER_BIT
    srcAccessMask := VK_ACCESS_COLOR_ATTACHMENT_WRITE_BIT
    dstAccessMask := VK_ACCESS_INPUT_ATTACHMENT_READ_BIT
    dependencyFlags := VK_DEPENDENCY_BY_REGION_BIT }
  { attachments := if hasDepth then [att0, att1] else [att0]
    subpasses := [subpass]
    dependencies :=
      (if isBackbuffer then [backbufferDep] else []) ++
      (if selfDependency then [selfDep] else [])
    multiview :=
      if multiview then
        some { viewMasks := [0x3], correlationMasks := [0x3],
               dependencyCount := 0, viewOffsetValue := 0 }
      else none }

/- Native-call state: a fresh-handle counter, plus a record of every
create-info the native create calls received.  vkCreateRenderPass and
vkCreateFramebuffer always succeed in this model (the code asserts
success and aborts otherwise). -/

structure ImageViewCreateInfo where
  image : Nat
  viewType : VkImageViewType
  format : Nat
  aspectMask : Nat
  levelCount : Nat
  layerCount : Nat
  baseArrayLayer : Nat
  deriving DecidableEq, Repr

structure FramebufferCreateInfo where
  renderPass : Nat
  attachmentCount : Nat
  view0 : Option Nat
  view1 : Option Nat
  width : Nat
  height : Nat
  layers : Nat
  deriving DecidableEq, Repr

structure NativeState where
  nextHandle : Nat
  createdPasses : List (Nat × RenderPassCreateInfo)
  createdFramebuffers : List (Nat × FramebufferCreateInfo)
  deriving DecidableEq, Repr

def vkCreateRenderPass (info : RenderPassCreateInfo) (st : NativeState) :
    Nat × NativeState :=
  (st.nextHandle,
   { st with nextHandle := st.nextHandle + 1
             createdPasses := st.createdPasses ++ [(st.nextHandle, info)] })

def vkCreateFramebuffer (info : FramebufferCreateInfo) (st : NativeState) :
    Nat × NativeState :=
  (st.nextHandle,
   { st with nextHandle := st.nextHandle + 1
             createdFramebuffers := st.createdFramebuffers ++ [(st.nextHandle, info)] })

/- VulkanFramebuffer.h: class VKRRenderPass — one RPKey fixed at
construction, a lazily filled array of TYPE_COUNT pass handles. -/

structure VKRRenderPass where
  pass : Fin 9 → Option Nat
  key_ : RPKey

def VKRRenderPass.mk' (key : RPKey) : VKRRenderPass :=
  { pass := fun _ => none, key_ := key }

structure GetRPResult where
  handle : Nat
  rp : VKRRenderPass
  st : NativeState

/- VulkanFramebuffer.cpp lines 345-353: VKRRenderPass::Get. -/
def VKRRenderPass.Get (rp : VKRRenderPass) (env : DeviceEnv) (rpType : RenderPassType)
    (st : NativeState) : GetRPResult :=
  match rp.pass rpType with
  | some h => { handle := h, rp := rp, st := st }
  | none =>
    let info := CreateRenderPass env rp.key_ rpType
    let r := vkCreateRenderPass info st
    { handle := r.1
      rp := { rp with pass := Function.update rp.pass rpType (some r.1) }
      st := r.2 }

/- VulkanFramebuffer.h: struct VKRImage.  Handles are Option Nat with
none standing for VK_NULL_HANDLE; the two texLayerViews array slots are
explicit fields. -/

structure VKRImage where
  image : Option Nat
  rtView : Option Nat
  texAllLayersView : Option Nat
  texLayerView0 : Option Nat
  texLayerView1 : Option Nat
  alloc : Option Nat
  format : Nat
  layout : VkImageLayout
  numLayers : Nat
  tag : String
  deriving DecidableEq, Repr

/- A zero-initialized VKRImage, i.e. the C++ value-initialized VKRImage{}
that a framebuffer keeps as its depth member when no depth buffer was
requested. -/
def emptyVKRImage : VKRImage :=
  { image := none, rtView := none, texAllLayersView := none,
    texLayerView0 := none, texLayerView1 := none, alloc := none,
    format := 0, layout := .UNDEFINED, numLayers := 0, tag := "" }

/- The switch at VulkanFramebuffer.cpp lines 181-197: destination access
mask and pipeline stage for the initial layout transition; none models the
Crash() default branch. -/
def initialTransitionAccessStage : VkImageLayout → Option (Nat × Nat)
  | .COLOR_ATTACHMENT_OPTIMAL =>
    some (VK_ACCESS_COLOR_ATTACHMENT_WRITE_BIT, VK_PIPELINE_STAGE_COLOR_ATTACHMENT_OUTPUT_BIT)
  | .TRANSFER_DST_OPTIMAL =>
    some (VK_ACCESS_TRANSFER_WRITE_BIT, VK_PIPELINE_STAGE_TRANSFER_BIT)
  | .DEPTH_STENCIL_ATTACHMENT_OPTIMAL =>
    some (VK_ACCESS_DEPTH_STENCIL_ATTACHMENT_WRITE_BIT,
      VK_PIPELINE_STAGE_EARLY_FRAGMENT_TESTS_BIT ||| VK_PIPELINE_STAGE_LATE_FRAGMENT_TESTS_BIT)
  | _ => none

/- The arguments recorded by the TransitionImageLayout2 call at lines
199-202. -/
structure Barrier where
  image : Nat
  baseMip : Nat
  numMipLevels : Nat
  numLayers : Nat
  aspectMask : Nat
  oldLayout : VkImageLayout
  newLayout : VkImageLayout
  srcStageMask : Nat
  dstStageMask : Nat
  srcAccessMask : Nat
  dstAccessMask : Nat
  deriving DecidableEq, Repr

/- The image-view create infos issued by CreateImage, in order: the
primary render-target view, the all-layers sampling view, then one
single-layer view per layer. -/
structure CreatedImageViews where
  rtViewInfo : ImageViewCreateInfo
  allLayersInfo : ImageViewCreateInfo
  layerViewInfos : List ImageViewCreateInfo
  deriving DecidableEq, Repr

structure CreateImageResult where
  img : VKRImage
  views : CreatedImageViews
  barrier : Barrier
  st : NativeState

/- Sequential fresh handles for the per-layer view loop. -/
def allocHandles : Nat → NativeState → List Nat × NativeState
  | 0, st => ([], st)
  | n + 1, st =>
    let h := st.nextHandle
    let rest := allocHandles n { st with nextHandle := st.nextHandle + 1 }
    (h :: rest.1, rest.2)

/- VulkanFramebuffer.cpp lines 111-207: VKRFramebuffer::CreateImage.
Returns none exactly when the initial-layout switch hits its Crash()
default.  The ivci mutation sequence of the C++ is reproduced by deriving
each successive create info from the previous one. -/
def CreateImage (numLayers : Nat) (format : Nat) (initialLayout : VkImageLayout)
    (isColor : Bool) (tag : String) (st : NativeState) : Option CreateImageResult :=
  let imageH := st.nextHandle
  let allocH := st.nextHandle + 1
  let rtH := st.nextHandle + 2
  let allH := st.nextHandle + 3
  let st1 : NativeState := { st with nextHandle := st.nextHandle + 4 }
  let aspects :=
    if isColor then VK_IMAGE_ASPECT_COLOR_BIT
    else VK_IMAGE_ASPECT_DEPTH_BIT ||| VK_IMAGE_ASPECT_STENCIL_BIT
  let rtInfo : ImageViewCreateInfo := {
    image := imageH
    viewType := if numLayers == 1 then .D2 else .D2_ARRAY
    format := format
    aspectMask := aspects
    levelCount := 1
    layerCount := numLayers
    baseArrayLayer := 0 }
  let allInfo : ImageViewCreateInfo :=
    { rtInfo with
      viewType := .D2_ARRAY
      aspectMask := if isColor then aspects else VK_IMAGE_ASPECT_DEPTH_BIT }
  let layerInfos := (List.range numLayers).map fun i =>
    { allInfo with viewType := .D2, layerCount := 1, baseArrayLayer := i }
  let la := allocHandles numLayers st1
  match initialTransitionAccessStage initialLayout with
  | none => none
  | some p =>
    some {
      img := {
        image := some imageH
        rtView := some rtH
        texAllLayersView := some allH
        texLayerView0 := la.1[0]?
        texLayerView1 := la.1[1]?
        alloc := some allocH
        format := format
        layout := initialLayout
        numLayers := numLayers
        tag := tag }
      views := { rtViewInfo := rtInfo, allLayersInfo := allInfo, layerViewInfos := layerInfos }
      barrier := {
        image := imageH
        baseMip := 0
        numMipLevels := 1
        numLayers := numLayers
        aspectMask := aspects
        oldLayout := .UNDEFINED
        newLayout := initialLayout
        srcStageMask := VK_PIPELINE_STAGE_TOP_OF_PIPE_BIT
        dstStageMask := p.2
        srcAccessMask := 0
        dstAccessMask := p.1 }
      st := la.2 }

/- VulkanFramebuffer.h: class VKRFramebuffer. -/

structure VKRFramebuffer where
  color : VKRImage
  depth : VKRImage
  framebuf : Fin 9 → Option Nat
  tag_ : String
  width : Nat
  height : Nat
  numLayers : Nat

inductive VkObjectType where
  | IMAGE
  | IMAGE_VIEW
  | FRAMEBUFFER
  deriving DecidableEq, Repr

/- One vulkan->SetDebugName call: the handle it was given (possibly
null), the object type and the name string. -/
structure SetNameEvent where
  handle : Option Nat
  objType : VkObjectType
  name : String
  deriving DecidableEq, Repr

/- VulkanFramebuffer.cpp lines 21-37: VKRFramebuffer::UpdateTag.  Note
that the C++ body formats every label from the stored tag_ member and
never reads the newTag parameter, nor assigns tag_; the returned
framebuffer is the receiver unchanged. -/
def VKRFramebuffer.UpdateTag (fb : VKRFramebuffer) (newTag : String) :
    List SetNameEvent × VKRFramebuffer :=
  let colorName := "fb_color_" ++ fb.tag_
  let colorEvents : List SetNameEvent :=
    [{ handle := fb.color.image, objType := .IMAGE, name := colorName },
     { handle := fb.color.rtView, objType := .IMAGE_VIEW, name := colorName }]
  let depthEvents : List SetNameEvent :=
    if fb.depth.image.isSome then
      let depthName := "fb_depth_" ++ fb.tag_
      [{ handle := fb.depth.image, objType := .IMAGE, name := depthName },
       { handle := fb.depth.rtView, objType := .IMAGE_VIEW, name := depthName }]
    else []
  let fbEvents : List SetNameEvent :=
    (List.finRange 9).foldr (fun i acc =>
      (match fb.framebuf i with
       | some h => [{ handle := some h, objType := .FRAMEBUFFER, name := "fb_" ++ fb.tag_ }]
       | none => []) ++ acc) []
  (colorEvents ++ depthEvents ++ fbEvents, fb)

/- Log and debug-name side effects of VKRFramebuffer::Get. -/
inductive GetLogEvent where
  | warnDepthMismatch
  | setName (name : String)
  deriving DecidableEq, Repr

structure GetFBResult where
  handle : Nat
  fb : VKRFramebuffer
  rp : VKRRenderPass
  st : NativeState
  logs : List GetLogEvent

/- VulkanFramebuffer.cpp lines 39-73: VKRFramebuffer::Get. -/
def VKRFramebuffer.Get (fb : VKRFramebuffer) (env : DeviceEnv)
    (compatibleRenderPass : VKRRenderPass) (rpType : RenderPassType)
    (st : NativeState) : GetFBResult :=
  match fb.framebuf rpType with
  | some h =>
    { handle := h, fb := fb, rp := compatibleRenderPass, st := st, logs := [] }
  | none =>
    let hasDepth := RenderPassTypeHasDepth rpType
    let warnLogs : List GetLogEvent :=
      if hasDepth && fb.depth.rtView.isNone then [.warnDepthMismatch] else []
    let rpr := compatibleRenderPass.Get env rpType st
    let fbci : FramebufferCreateInfo := {
      renderPass := rpr.handle
      attachmentCount := if hasDepth then 2 else 1
      view0 := fb.color.rtView
      view1 := if hasDepth then fb.depth.rtView else none
      width := fb.width
      height := fb.height
      layers := 1 }
    let cr := vkCreateFramebuffer fbci rpr.st
    let nameLogs : List GetLogEvent :=
      if fb.tag_ != "" && env.debugUtils then [.setName ("fb_" ++ fb.tag_)] else []
    { handle := cr.1
      fb := { fb with framebuf := Function.update fb.framebuf rpType (some cr.1) }
      rp := rpr.rp
      st := cr.2
      logs := warnLogs ++ nameLogs }

/- VulkanFramebuffer.cpp lines 5-19: the VKRFramebuffer constructor.
Creates the color image always and a depth/stencil image only when
requested, then calls UpdateTag.  Returns none when a CreateImage call
aborts (never happens for the two layouts the constructor passes). -/
def VKRFramebuffer.construct (env : DeviceEnv) (width height numLayers : Nat)
    (createDepthStencilBuffer : Bool) (tag : String) (st : NativeState) :
    Option (VKRFramebuffer × NativeState × List SetNameEvent) :=
  match CreateImage numLayers VK_FORMAT_R8G8B8A8_UNORM .COLOR_ATTACHMENT_OPTIMAL true tag st with
  | none => none
  | some rc =>
    if createDepthStencilBuffer then
      match CreateImage numLayers env.preferredDepthStencilFormat
          .DEPTH_STENCIL_ATTACHMENT_OPTIMAL false tag rc.st with
      | none => none
      | some rd =>
        let fb : VKRFramebuffer :=
          { color := rc.img, depth := rd.img, framebuf := fun _ => none,
            tag_ := tag, width := width, height := height, numLayers := numLayers }
        some (fb, rd.st, (fb.UpdateTag tag).1)
    else
      let fb : VKRFramebuffer :=
        { color := rc.img, depth := emptyVKRImage, framebuf := fun _ => none,
          tag_ := tag, width := width, height := height, numLayers := numLayers }
      some (fb, rc.st, (fb.UpdateTag tag).1)

/- The deferred-deletion queue calls issued by the destructor.  Every
constructor of this event type is a Delete().Queue* call; the destructor
issues no other native calls, so no synchronous destroy is representable
in its output. -/
inductive DeleteEvent where
  | queueDeleteImageView (h : Nat)
  | queueDeleteImageAllocation (image : Nat) (alloc : Option Nat)
  | queueDeleteFramebuffer (h : Nat)
  deriving DecidableEq, Repr

def queueViewDelete (v : Option Nat) : List DeleteEvent :=
  match v with
  | some h => [.queueDeleteImageView h]
  | none => []

def queueImageDelete (img : VKRImage) : List DeleteEvent :=
  match img.image with
  | some h => [.queueDeleteImageAllocation h img.alloc]
  | none => []

def queueFramebufferDelete (v : Option Nat) : List DeleteEvent :=
  match v with
  | some h => [.queueDeleteFramebuffer h]
  | none => []

/- VulkanFramebuffer.cpp lines 75-107: the VKRFramebuffer destructor, as
the ordered list of deferred-deletion enqueue calls it makes: the two
primary views, the two all-layers views, the per-layer views (loop i =
0, 1 touching color then depth each iteration), the two image+allocation
pairs, then the framebuffer-object array in index order. -/
def VKRFramebuffer.destructorEvents (fb : VKRFramebuffer) : List DeleteEvent :=
  queueViewDelete fb.color.rtView ++
  queueViewDelete fb.depth.rtView ++
  queueViewDelete fb.color.texAllLayersView ++
  queueViewDelete fb.depth.texAllLayersView ++
  queueViewDelete fb.color.texLayerView0 ++
  queueViewDelete fb.depth.texLayerView0 ++
  queueViewDelete fb.color.texLayerView1 ++
  queueViewDelete fb.depth.texLayerView1 ++
  queueImageDelete fb.color ++
  queueImageDelete fb.depth ++
  (queueFramebufferDelete (fb.framebuf 0) ++
   queueFramebufferDelete (fb.framebuf 1) ++
   queueFramebufferDelete (fb.framebuf 2) ++
   queueFramebufferDelete (fb.framebuf 3) ++
   queueFramebufferDelete (fb.framebuf 4) ++
   queueFramebufferDelete (fb.framebuf 5) ++
   queueFramebufferDelete (fb.framebuf 6) ++
   queueFramebufferDelete (fb.framebuf 7) ++
   queueFramebufferDelete (fb.framebuf 8))

/- The owned handle slots of a framebuffer, by category: the eight view
slots, the two image slots (paired with their allocation) and the nine
framebuffer-object cache slots. -/

def VKRFramebuffer.ownedViewSlots (fb : VKRFramebuffer) : List (Option Nat) :=
  [fb.color.rtView, fb.depth.rtView,
   fb.color.texAllLayersView, fb.depth.texAllLayersView,
   fb.color.texLayerView0, fb.depth.texLayerView0,
   fb.color.texLayerView1, fb.depth.texLayerView1]

def VKRFramebuffer.ownedImageSlots (fb : VKRFramebuffer) : List (Option (Nat × Option Nat)) :=
  [fb.color.image.map (fun h => (h, fb.color.alloc)),
   fb.depth.image.map (fun h => (h, fb.depth.alloc))]

def VKRFramebuffer.ownedFramebufSlots (fb : VKRFramebuffer) : List (Option Nat) :=
  [fb.framebuf 0, fb.framebuf 1, fb.framebuf 2, fb.framebuf 3, fb.framebuf 4,
   fb.framebuf 5, fb.framebuf 6, fb.framebuf 7, fb.framebuf 8]

/- Concrete probe values used to exercise the definitions on closed
inputs. -/

def envProbe : DeviceEnv :=
  { swapchainFormat := 44, preferredDepthStencilFormat := 126, debugUtils := true }

def keyProbe : RPKey :=
  { colorLoadAction := .CLEAR, depthLoadAction := .KEEP, stencilLoadAction := .DONT_CARE,
    colorStoreAction := .STORE, depthStoreAction := .DONT_CARE, stencilStoreAction := .STORE }

def stProbe : NativeState :=
  { nextHandle := 0, createdPasses := [], createdFramebuffers := [] }

def rpProbe : VKRRenderPass := VKRRenderPass.mk' keyProbe

/- A framebuffer with stored tag "old", a color image, no depth image and
one cached framebuffer object, for evaluating UpdateTag. -/
def fbTagProbe : VKRFramebuffer :=
  { color := { emptyVKRImage with image := some 11, rtView := some 12 },
    depth := emptyVKRImage,
    framebuf := Function.update (fun _ => none) 0 (some 31),
    tag_ := "old", width := 32, height := 32, numLayers := 1 }

/- A fully populated single-layer framebuffer with pairwise distinct
handles and one cached framebuffer object, for evaluating the
destructor. -/
def fbDtorProbe : VKRFramebuffer :=
  { color := { image := some 1, rtView := some 2, texAllLayersView := some 3,
               texLayerView0 := some 4, texLayerView1 := none, alloc := some 5,
               format := VK_FORMAT_R8G8B8A8_UNORM, layout := .COLOR_ATTACHMENT_OPTIMAL,
               numLayers := 1, tag := "p" },
    depth := { image := some 6, rtView := some 7, texAllLayersView := some 8,
               texLayerView0 := some 9, texLayerView1 := none, alloc := some 10,
               format := 126, layout := .DEPTH_STENCIL_ATTACHMENT_OPTIMAL,
               numLayers := 1, tag := "p" },
    framebuf := Function.update (fun _ => none) 1 (some 20),
    tag_ := "p", width := 8, height := 8, numLayers := 1 }

def defaultCreateImageResult : CreateImageResult :=
  { img := emptyVKRImage,
    views := { rtViewInfo := { image := 0, viewType := .D2, format := 0, aspectMask := 0,
                               levelCount := 0, layerCount := 0, baseArrayLayer := 0 },
               allLayersInfo := { image := 0, viewType := .D2, format := 0, aspectMask := 0,
                                  levelCount := 0, layerCount := 0, baseArrayLayer := 0 },
               layerViewInfos := [] },
    barrier := { image := 0, baseMip := 0, numMipLevels := 0, numLayers := 0, aspectMask := 0,
                 oldLayout := .UNDEFINED, newLayout := .UNDEFINED, srcStageMask := 0,
                 dstStageMask := 0, srcAccessMask := 0, dstAccessMask := 0 },
    st := stProbe }

/- The image factory evaluated on a concrete two-layer depth/stencil
request. -/
def createImageProbe : CreateImageResult :=
  (CreateImage 2 126 .DEPTH_STENCIL_ATTACHMENT_OPTIMAL false "d" stProbe).getD
    defaultCreateImageResult

/- Theorems. -/

/-- C4: RenderPassTypeHasDepth is true exactly when bit 0 (the depth
facet) is set or the tag is BACKBUFFER; RenderPassTypeHasInput and
RenderPassTypeHasMultiView are true exactly when bit 1 resp. bit 2 is
set.  Each is a pure function of the tag value. -/
theorem renderpass_type_predicates_pure_bit_tests :
    ∀ t : RenderPassType,
      RenderPassTypeHasDepth t = (t.val.testBit 0 || decide (t = RenderPassType.BACKBUFFER)) ∧
      RenderPassTypeHasInput t = t.val.testBit 1 ∧
      RenderPassTypeHasMultiView t = t.val.testBit 2 := by
  decide

/-- C9: a render pass built for a multiview type carries the multiview
extension structure with a single subpass view mask 0b11, exactly one
correlation mask 0b11 and a zero view offset; a non-multiview type
carries no multiview extension data. -/
theorem renderpass_multiview_configuration :
    ∀ (env : DeviceEnv) (key : RPKey) (t : RenderPassType),
      (RenderPassTypeHasMultiView t = true →
        (CreateRenderPass env key t).multiview =
          some { viewMasks := [0b11], correlationMasks := [0b11],
                 dependencyCount := 0, viewOffsetValue := 0 }) ∧
      (RenderPassTypeHasMultiView t = false →
        (CreateRenderPass env key t).multiview = none) := by
  intro env key t
  constructor <;> intro h <;> simp [CreateRenderPass, h]

/-- C9 witness: the multiview configuration at the MULTIVIEW tag and the
absence of extension data at the DEFAULT tag, on concrete inputs. -/
theorem renderpass_multiview_configuration_witness :
    (CreateRenderPass envProbe keyProbe RenderPassType.MULTIVIEW).multiview =
      some { viewMasks := [0b11], correlationMasks := [0b11],
             dependencyCount := 0, viewOffsetValue := 0 } ∧
    (CreateRenderPass envProbe keyProbe RenderPassType.DEFAULT).multiview = none :=
  ⟨(renderpass_multiview_configuration envProbe keyProbe RenderPassType.MULTIVIEW).1 (by decide),
   (renderpass_multiview_configuration envProbe keyProbe RenderPassType.DEFAULT).2 (by decide)⟩

/-- C1: the claim says UpdateTag renames the color image and view labels,
the depth labels and the cached framebuffer-object labels using the NEW
tag.  The code formats every label from the stored tag_ member, never
reads the newTag parameter and never assigns tag_.  Evaluated on a
framebuffer whose stored tag is "old": UpdateTag "new" emits labels built
from "old" and leaves the object (including tag_) unchanged. -/
theorem updateTag_labels_use_stored_tag :
    (fbTagProbe.UpdateTag "new").1 =
      [{ handle := some 11, objType := .IMAGE, name := "fb_color_old" },
       { handle := some 12, objType := .IMAGE_VIEW, name := "fb_color_old" },
       { handle := some 31, objType := .FRAMEBUFFER, name := "fb_old" }] ∧
    (fbTagProbe.UpdateTag "new").2.tag_ = "old" ∧
    "fb_color_old" ≠ "fb_color_new" := by
  refine ⟨by decide, by decide, by decide⟩

/-- C5: with the color-input facet set, the created pass has exactly one
subpass whose single input attachment is the color attachment referenced
in the GENERAL layout, and its subpass-0-to-subpass-0 dependencies are
exactly the one region-scoped self-dependency (color-attachment-output /
color-attachment-write before fragment-shader / input-attachment-read),
on top of whatever swapchain external dependency exists; without the
facet there are no input attachments, no self-dependencies, and the color
attachment is referenced in the color-attachment-optimal layout. -/
theorem renderpass_self_input_attachments_and_dependency :
    ∀ (env : DeviceEnv) (key : RPKey) (t : RenderPassType),
      (RenderPassTypeHasInput t = true →
        (CreateRenderPass env key t).subpasses.map SubpassDescription.inputAttachments =
          [[{ attachment := 0, layout := .GENERAL }]] ∧
        (CreateRenderPass env key t).subpasses.map SubpassDescription.colorAttachments =
          [[{ attachment := 0, layout := .GENERAL }]] ∧
        (CreateRenderPass env key t).dependencies.filter
            (fun d => d.srcSubpass == 0 && d.dstSubpass == 0) =
          [{ srcSubpass := 0, dstSubpass := 0,
             srcStageMask := VK_PIPELINE_STAGE_COLOR_ATTACHMENT_OUTPUT_BIT,
             dstStageMask := VK_PIPELINE_STAGE_FRAGMENT_SHADER_BIT,
             srcAccessMask := VK_ACCESS_COLOR_ATTACHMENT_WRITE_BIT,
             dstAccessMask := VK_ACCESS_INPUT_ATTACHMENT_READ_BIT,
             dependencyFlags := VK_DEPENDENCY_BY_REGION_BIT }]) ∧
      (RenderPassTypeHasInput t = false →
        (CreateRenderPass env key t).subpasses.map SubpassDescription.inputAttachments = [[]] ∧
        (CreateRenderPass env key t).subpasses.map SubpassDescription.colorAttachments =
          [[{ attachment := 0, layout := .COLOR_ATTACHMENT_OPTIMAL }]] ∧
        (CreateRenderPass env key t).dependencies.filter
            (fun d => d.srcSubpass == 0 && d.dstSubpass == 0) = []) := by
  intro env key t
  constructor <;> intro h <;> fin_cases t <;>
    simp_all [CreateRenderPass, RenderPassTypeHasInput, RenderPassTypeHasDepth,
      RenderPassType.BACKBUFFER, RenderPassType.COLOR_INPUT, RenderPassType.HAS_DEPTH,
      VK_SUBPASS_EXTERNAL]

/-- C5 witness: the self-input wiring at the COLOR_INPUT tag and its
absence at the DEFAULT tag, on concrete inputs. -/
theorem renderpass_self_input_attachments_and_dependency_witness :
    (CreateRenderPass envProbe keyProbe RenderPassType.COLOR_INPUT).subpasses.map
        SubpassDescription.inputAttachments = [[{ attachment := 0, layout := .GENERAL }]] ∧
    (CreateRenderPass envProbe keyProbe RenderPassType.COLOR_INPUT).dependencies.filter
        (fun d => d.srcSubpass == 0 && d.dstSubpass == 0) =
      [{ srcSubpass := 0, dstSubpass := 0,
         srcStageMask := VK_PIPELINE_STAGE_COLOR_ATTACHMENT_OUTPUT_BIT,
         dstStageMask := VK_PIPELINE_STAGE_FRAGMENT_SHADER_BIT,
         srcAccessMask := VK_ACCESS_COLOR_ATTACHMENT_WRITE_BIT,
         dstAccessMask := VK_ACCESS_INPUT_ATTACHMENT_READ_BIT,
         dependencyFlags := VK_DEPENDENCY_BY_REGION_BIT }] ∧
    (CreateRenderPass envProbe keyProbe RenderPassType.DEFAULT).subpasses.map
        SubpassDescription.inputAttachments = [[]] :=
  ⟨((renderpass_self_input_attachments_and_dependency envProbe keyProbe
      RenderPassType.COLOR_INPUT).1 (by decide)).1,
   ((renderpass_self_input_attachments_and_dependency envProbe keyProbe
      RenderPassType.COLOR_INPUT).1 (by decide)).2.2,
   ((renderpass_self_input_attachments_and_dependency envProbe keyProbe
      RenderPassType.DEFAULT).2 (by decide)).1⟩

/-- C10: the color attachment (attachment 0) always has stencil load and
store ops DONT_CARE, for every key and pass type; changing only the key
stencil fields leaves attachment 0, the subpasses, the dependencies and
the multiview data unchanged, and when the type has no depth attachment
it leaves the entire created pass unchanged. -/
theorem renderpass_color_attachment_stencil_ops :
    ∀ (env : DeviceEnv) (key : RPKey) (t : RenderPassType)
      (sl : VKRRenderPassLoadAction) (ss : VKRRenderPassStoreAction),
      ((CreateRenderPass env key t).attachments.map
          (fun a => (a.stencilLoadOp, a.stencilStoreOp))).head? =
        some (.DONT_CARE, .DONT_CARE) ∧
      (CreateRenderPass env
          { key with stencilLoadAction := sl, stencilStoreAction := ss } t).attachments.head? =
        (CreateRenderPass env key t).attachments.head? ∧
      (CreateRenderPass env
          { key with stencilLoadAction := sl, stencilStoreAction := ss } t).subpasses =
        (CreateRenderPass env key t).subpasses ∧
      (CreateRenderPass env
          { key with stencilLoadAction := sl, stencilStoreAction := ss } t).dependencies =
        (CreateRenderPass env key t).dependencies ∧
      (CreateRenderPass env
          { key with stencilLoadAction := sl, stencilStoreAction := ss } t).multiview =
        (CreateRenderPass env key t).multiview ∧
      (RenderPassTypeHasDepth t = false →
        CreateRenderPass env { key with stencilLoadAction := sl, stencilStoreAction := ss } t =
          CreateRenderPass env key t) := by
  intro env key t sl ss
  fin_cases t <;>
    simp_all [CreateRenderPass, RenderPassTypeHasInput, RenderPassTypeHasDepth,
      RenderPassType.BACKBUFFER, RenderPassType.HAS_DEPTH, RenderPassType.COLOR_INPUT,
      RenderPassType.MULTIVIEW]

/-- C10 witness: the stencil-op facts at the DEFAULT tag on concrete
inputs, including full equality of the created pass under a stencil-field
change since DEFAULT has no depth attachment. -/
theorem renderpass_color_attachment_stencil_ops_witness :
    ((CreateRenderPass envProbe keyProbe RenderPassType.DEFAULT).attachments.map
        (fun a => (a.stencilLoadOp, a.stencilStoreOp))).head? =
      some (.DONT_CARE, .DONT_CARE) ∧
    CreateRenderPass envProbe
        { keyProbe with stencilLoadAction := .KEEP, stencilStoreAction := .STORE }
        RenderPassType.DEFAULT =
      CreateRenderPass envProbe keyProbe RenderPassType.DEFAULT :=
  ⟨(renderpass_color_attachment_stencil_ops envProbe keyProbe RenderPassType.DEFAULT
      .KEEP .STORE).1,
   (renderpass_color_attachment_stencil_ops envProbe keyProbe RenderPassType.DEFAULT
      .KEEP .STORE).2.2.2.2.2 (by decide)⟩

/-- C8: the initial layout transition recorded by the image factory uses
color-attachment-write at the color-attachment-output stage for the
color-attachment layout, transfer-write at the transfer stage for the
transfer-destination layout, and depth-stencil-attachment-write at the
combined early and late fragment-test stages for the depth-attachment
layout; for any other requested initial layout the factory hits its
Crash() default and produces nothing. -/
theorem create_image_initial_transition_masks :
    ∀ (n f : Nat) (c : Bool) (tag : String) (st : NativeState),
      ((CreateImage n f .COLOR_ATTACHMENT_OPTIMAL c tag st).map
          (fun r => (r.barrier.dstAccessMask, r.barrier.dstStageMask)) =
        some (VK_ACCESS_COLOR_ATTACHMENT_WRITE_BIT,
          VK_PIPELINE_STAGE_COLOR_ATTACHMENT_OUTPUT_BIT)) ∧
      ((CreateImage n f .TRANSFER_DST_OPTIMAL c tag st).map
          (fun r => (r.barrier.dstAccessMask, r.barrier.dstStageMask)) =
        some (VK_ACCESS_TRANSFER_WRITE_BIT, VK_PIPELINE_STAGE_TRANSFER_BIT)) ∧
      ((CreateImage n f .DEPTH_STENCIL_ATTACHMENT_OPTIMAL c tag st).map
          (fun r => (r.barrier.dstAccessMask, r.barrier.dstStageMask)) =
        some (VK_ACCESS_DEPTH_STENCIL_ATTACHMENT_WRITE_BIT,
          VK_PIPELINE_STAGE_EARLY_FRAGMENT_TESTS_BIT |||
            VK_PIPELINE_STAGE_LATE_FRAGMENT_TESTS_BIT)) ∧
      (∀ L : VkImageLayout, L ≠ .COLOR_ATTACHMENT_OPTIMAL → L ≠ .TRANSFER_DST_OPTIMAL →
        L ≠ .DEPTH_STENCIL_ATTACHMENT_OPTIMAL → CreateImage n f L c tag st = none) := by
  intro n f c tag st
  refine ⟨by simp [CreateImage, initialTransitionAccessStage],
          by simp [CreateImage, initialTransitionAccessStage],
          by simp [CreateImage, initialTransitionAccessStage], ?_⟩
  intro L h1 h2 h3
  cases L <;> simp_all [CreateImage, initialTransitionAccessStage]

/-- C8 witness: the three supported layouts and one unsupported layout
(GENERAL) evaluated at concrete factory arguments. -/
theorem create_image_initial_transition_masks_witness :
    ((CreateImage 1 VK_FORMAT_R8G8B8A8_UNORM .COLOR_ATTACHMENT_OPTIMAL true "x" stProbe).map
        (fun r => (r.barrier.dstAccessMask, r.barrier.dstStageMask)) =
      some (VK_ACCESS_COLOR_ATTACHMENT_WRITE_BIT,
        VK_PIPELINE_STAGE_COLOR_ATTACHMENT_OUTPUT_BIT)) ∧
    CreateImage 1 VK_FORMAT_R8G8B8A8_UNORM .GENERAL true "x" stProbe = none :=
  ⟨(create_image_initial_transition_masks 1 VK_FORMAT_R8G8B8A8_UNORM true "x" stProbe).1,
   (create_image_initial_transition_masks 1 VK_FORMAT_R8G8B8A8_UNORM true "x" stProbe).2.2.2
     .GENERAL (by decide) (by decide) (by decide)⟩

/-- C7: for a supported creation, the factory issues exactly layerCount
single-layer 2D sampling views, each restricted to its own array slice,
and exactly one all-layers sampling view that is always 2D-array-typed;
for depth targets the all-layers view is restricted to the depth aspect
only. -/
theorem create_image_view_counts_and_aspects :
    ∀ (n f : Nat) (L : VkImageLayout) (c : Bool) (tag : String) (st : NativeState)
      (r : CreateImageResult),
      CreateImage n f L c tag st = some r →
      (n = 1 ∨ n = 2) →
      r.views.layerViewInfos.length = n ∧
      r.views.layerViewInfos.map ImageViewCreateInfo.viewType = List.replicate n .D2 ∧
      r.views.layerViewInfos.map ImageViewCreateInfo.layerCount = List.replicate n 1 ∧
      r.views.layerViewInfos.map ImageViewCreateInfo.baseArrayLayer = List.range n ∧
      r.views.allLayersInfo.viewType = .D2_ARRAY ∧
      (c = false → r.views.allLayersInfo.aspectMask = VK_IMAGE_ASPECT_DEPTH_BIT) := by
  intro n f L c tag st r hr _
  cases hL : initialTransitionAccessStage L <;>
    simp [CreateImage, hL] at hr
  subst hr
  refine ⟨by simp, ?_, ?_, ?_, by cases c <;> simp, by intro hc; subst hc; simp⟩ <;>
    simp [List.map_map, Function.comp_def]

/-- C7 witness: the two-layer depth/stencil factory call produces two
single-layer views on slices 0 and 1 and one 2D-array all-layers view
restricted to the depth aspect. -/
theorem create_image_view_counts_and_aspects_witness :
    createImageProbe.views.layerViewInfos.length = 2 ∧
    createImageProbe.views.layerViewInfos.map ImageViewCreateInfo.baseArrayLayer =
      List.range 2 ∧
    createImageProbe.views.allLayersInfo.viewType = .D2_ARRAY ∧
    createImageProbe.views.allLayersInfo.aspectMask = VK_IMAGE_ASPECT_DEPTH_BIT :=
  have h := create_image_view_counts_and_aspects 2 126 .DEPTH_STENCIL_ATTACHMENT_OPTIMAL
    false "d" stProbe createImageProbe (by rfl) (Or.inr rfl)
  ⟨h.1, h.2.2.2.1, h.2.2.2.2.1, h.2.2.2.2.2 rfl⟩

/-- C3: a second VKRFramebuffer.Get with the same pass type returns the
identical cached handle with the framebuffer, the compatible render pass
and the native state unchanged and no logging (so no second
construction); likewise a second VKRRenderPass.Get with the same type
returns the identical cached pass handle with everything unchanged.  Both
caches are keyed only by the type; the RPKey is a fixed field of the
render pass object. -/
theorem framebuffer_and_renderpass_get_idempotent :
    (∀ (env : DeviceEnv) (fb : VKRFramebuffer) (crp : VKRRenderPass)
        (t : RenderPassType) (st : NativeState),
        ((fb.Get env crp t st).fb).Get env ((fb.Get env crp t st).rp) t
            ((fb.Get env crp t st).st) =
          { handle := (fb.Get env crp t st).handle, fb := (fb.Get env crp t st).fb,
            rp := (fb.Get env crp t st).rp, st := (fb.Get env crp t st).st,
            logs := [] }) ∧
    (∀ (env : DeviceEnv) (rp : VKRRenderPass) (t : RenderPassType) (st : NativeState),
        ((rp.Get env t st).rp).Get env t ((rp.Get env t st).st) =
          { handle := (rp.Get env t st).handle, rp := (rp.Get env t st).rp,
            st := (rp.Get env t st).st }) := by
  constructor
  · intro env fb crp t st
    cases hc : fb.framebuf t <;>
      simp [VKRFramebuffer.Get, hc, Function.update_same]
  · intro env rp t st
    cases hc : rp.pass t <;>
      simp [VKRRenderPass.Get, hc, Function.update_same]

/-- A VKRRenderPass.Get call never touches the framebuffer-object record
of the native state. -/
theorem rpGet_preserves_createdFramebuffers (rp : VKRRenderPass) (env : DeviceEnv)
    (t : RenderPassType) (st : NativeState) :
    (rp.Get env t st).st.createdFramebuffers = st.createdFramebuffers := by
  unfold VKRRenderPass.Get
  cases rp.pass t <;> simp [vkCreateRenderPass]

/-- C2: constructing a framebuffer with createDepthStencilBuffer = false
and then calling Get with a depth-bearing pass type logs the hazard
warning first, still builds the framebuffer object with attachment count
2 and a null depth view (view1 = none), caches it, and returns the
resulting handle. -/
theorem get_depth_type_on_depthless_framebuffer :
    ∀ (env : DeviceEnv) (w hh nl : Nat) (tag : String) (st : NativeState)
      (crp : VKRRenderPass) (t : RenderPassType),
      RenderPassTypeHasDepth t = true →
      ∃ fb st2 evs,
        VKRFramebuffer.construct env w hh nl false tag st = some (fb, st2, evs) ∧
        (fb.Get env crp t st2).logs.head? = some .warnDepthMismatch ∧
        (fb.Get env crp t st2).st.createdFramebuffers =
          st2.createdFramebuffers ++
            [((fb.Get env crp t st2).handle,
              { renderPass := (crp.Get env t st2).handle, attachmentCount := 2,
                view0 := fb.color.rtView, view1 := none,
                width := w, height := hh, layers := 1 })] ∧
        (fb.Get env crp t st2).fb.framebuf t = some (fb.Get env crp t st2).handle := by
  intro env w hh nl tag st crp t ht
  refine ⟨_, _, _, rfl, ?_, ?_, ?_⟩ <;>
    simp [VKRFramebuffer.construct, CreateImage, initialTransitionAccessStage,
      VKRFramebuffer.Get, ht, emptyVKRImage, vkCreateFramebuffer,
      rpGet_preserves_createdFramebuffers, Function.update_same]

/-- C2 witness: the depthless end-to-end scenario at concrete inputs,
with pass type HAS_DEPTH. -/
theorem get_depth_type_on_depthless_framebuffer_witness :
    RenderPassTypeHasDepth RenderPassType.HAS_DEPTH = true ∧
    (∃ fb st2 evs,
      VKRFramebuffer.construct envProbe 1920 1080 1 false "t" stProbe = some (fb, st2, evs) ∧
      (fb.Get envProbe rpProbe RenderPassType.HAS_DEPTH st2).logs.head? =
        some .warnDepthMismatch ∧
      (fb.Get envProbe rpProbe RenderPassType.HAS_DEPTH st2).st.createdFramebuffers =
        st2.createdFramebuffers ++
          [((fb.Get envProbe rpProbe RenderPassType.HAS_DEPTH st2).handle,
            { renderPass := (rpProbe.Get envProbe RenderPassType.HAS_DEPTH st2).handle,
              attachmentCount := 2, view0 := fb.color.rtView, view1 := none,
              width := 1920, height := 1080, layers := 1 })] ∧
      (fb.Get envProbe rpProbe RenderPassType.HAS_DEPTH st2).fb.framebuf
          RenderPassType.HAS_DEPTH =
        some (fb.Get envProbe rpProbe RenderPassType.HAS_DEPTH st2).handle) :=
  ⟨by decide,
   get_depth_type_on_depthless_framebuffer envProbe 1920 1080 1 "t" stProbe rpProbe
     RenderPassType.HAS_DEPTH (by decide)⟩

/- Counting helpers for the destructor event list. -/

theorem queueViewDelete_count_view (s : Option Nat) (v : Nat) :
    (queueViewDelete s).count (DeleteEvent.queueDeleteImageView v) =
      if s = some v then 1 else 0 := by
  cases s <;> simp [queueViewDelete, List.count_singleton]

theorem queueImageDelete_count_view (img : VKRImage) (v : Nat) :
    (queueImageDelete img).count (DeleteEvent.queueDeleteImageView v) = 0 := by
  cases h : img.image <;> simp [queueImageDelete, h, List.count_singleton]

theorem queueFramebufferDelete_count_view (s : Option Nat) (v : Nat) :
    (queueFramebufferDelete s).count (DeleteEvent.queueDeleteImageView v) = 0 := by
  cases s <;> simp [queueFramebufferDelete, List.count_singleton]

theorem queueViewDelete_count_alloc (s : Option Nat) (h : Nat) (a : Option Nat) :
    (queueViewDelete s).count (DeleteEvent.queueDeleteImageAllocation h a) = 0 := by
  cases s <;> simp [queueViewDelete, List.count_singleton]

theorem queueImageDelete_count_alloc (img : VKRImage) (h : Nat) (a : Option Nat) :
    (queueImageDelete img).count (DeleteEvent.queueDeleteImageAllocation h a) =
      if img.image.map (fun i => (i, img.alloc)) = some (h, a) then 1 else 0 := by
  cases hi : img.image <;> simp [queueImageDelete, hi, List.count_singleton]

theorem queueFramebufferDelete_count_alloc (s : Option Nat) (h : Nat) (a : Option Nat) :
    (queueFramebufferDelete s).count (DeleteEvent.queueDeleteImageAllocation h a) = 0 := by
  cases s <;> simp [queueFramebufferDelete, List.count_singleton]

theorem queueViewDelete_count_fb (s : Option Nat) (v : Nat) :
    (queueViewDelete s).count (DeleteEvent.queueDeleteFramebuffer v) = 0 := by
  cases s <;> simp [queueViewDelete, List.count_singleton]

theorem queueImageDelete_count_fb (img : VKRImage) (v : Nat) :
    (queueImageDelete img).count (DeleteEvent.queueDeleteFramebuffer v) = 0 := by
  cases h : img.image <;> simp [queueImageDelete, h, List.count_singleton]

theorem queueFramebufferDelete_count_fb (s : Option Nat) (v : Nat) :
    (queueFramebufferDelete s).count (DeleteEvent.queueDeleteFramebuffer v) =
      if s = some v then 1 else 0 := by
  cases s <;> simp [queueFramebufferDelete, List.count_singleton]

theorem count_nodup_mem_eq_one {α : Type} [BEq α] [LawfulBEq α] {a : α} {l : List α}
    (d : l.Nodup) (h : a ∈ l) : l.count a = 1 := by
  induction l with
  | nil => simp at h
  | cons b rest ih =>
    rcases List.mem_cons.mp h with rfl | hmem
    · have hnotmem : a ∉ rest := by
        have := List.nodup_cons.mp d
        simpa using this.1
      simp [List.count_cons, List.count_eq_zero_of_not_mem hnotmem]
    · have hne : b ≠ a := by
        intro he
        subst he
        exact (List.nodup_cons.mp d).1 hmem
      have := ih (List.nodup_cons.mp d).2 hmem
      simp [List.count_cons, this, hne]

theorem count_some_eq_count_filterMap {α : Type} [BEq α] [LawfulBEq α]
    (l : List (Option α)) (v : α) :
    l.count (some v) = (l.filterMap id).count v := by
  induction l with
  | nil => simp
  | cons s rest ih => cases s <;> simp [List.count_cons, ih, List.filterMap_cons]

theorem destructor_view_count (fb : VKRFramebuffer) (v : Nat) :
    fb.destructorEvents.count (DeleteEvent.queueDeleteImageView v) =
      fb.ownedViewSlots.count (some v) := by
  simp [VKRFramebuffer.destructorEvents, VKRFramebuffer.ownedViewSlots,
    queueViewDelete_count_view, queueImageDelete_count_view,
    queueFramebufferDelete_count_view, List.count_append, List.count_cons]
  omega

theorem destructor_image_count (fb : VKRFramebuffer) (h : Nat) (a : Option Nat) :
    fb.destructorEvents.count (DeleteEvent.queueDeleteImageAllocation h a) =
      fb.ownedImageSlots.count (some (h, a)) := by
  simp [VKRFramebuffer.destructorEvents, VKRFramebuffer.ownedImageSlots,
    queueViewDelete_count_alloc, queueImageDelete_count_alloc,
    queueFramebufferDelete_count_alloc, List.count_append, List.count_cons]
  omega

theorem destructor_fb_count (fb : VKRFramebuffer) (v : Nat) :
    fb.destructorEvents.count (DeleteEvent.queueDeleteFramebuffer v) =
      fb.ownedFramebufSlots.count (some v) := by
  simp [VKRFramebuffer.destructorEvents, VKRFramebuffer.ownedFramebufSlots,
    queueViewDelete_count_fb, queueImageDelete_count_fb,
    queueFramebufferDelete_count_fb, List.count_append, List.count_cons]
  omega

/-- C6: the destructor output consists only of deferred-deletion queue
calls (the DeleteEvent vocabulary), and for every framebuffer the number
of enqueues of each view handle, image+allocation pair and
framebuffer-object handle equals the number of owned slots holding it; in
particular when the owned handles of a category are pairwise distinct,
every owned handle of that category is enqueued exactly once — nothing
omitted, nothing duplicated. -/
theorem destructor_enqueues_owned_handles_exactly_once :
    ∀ fb : VKRFramebuffer,
      (∀ v : Nat, fb.destructorEvents.count (DeleteEvent.queueDeleteImageView v) =
        fb.ownedViewSlots.count (some v)) ∧
      (∀ (h : Nat) (a : Option Nat),
        fb.destructorEvents.count (DeleteEvent.queueDeleteImageAllocation h a) =
          fb.ownedImageSlots.count (some (h, a))) ∧
      (∀ h : Nat, fb.destructorEvents.count (DeleteEvent.queueDeleteFramebuffer h) =
        fb.ownedFramebufSlots.count (some h)) ∧
      ((fb.ownedViewSlots.filterMap id).Nodup →
        ∀ v ∈ fb.ownedViewSlots.filterMap id,
          fb.destructorEvents.count (DeleteEvent.queueDeleteImageView v) = 1) ∧
      ((fb.ownedImageSlots.filterMap id).Nodup →
        ∀ p ∈ fb.ownedImageSlots.filterMap id,
          fb.destructorEvents.count (DeleteEvent.queueDeleteImageAllocation p.1 p.2) = 1) ∧
      ((fb.ownedFramebufSlots.filterMap id).Nodup →
        ∀ h ∈ fb.ownedFramebufSlots.filterMap id,
          fb.destructorEvents.count (DeleteEvent.queueDeleteFramebuffer h) = 1) := by
  intro fb
  refine ⟨destructor_view_count fb, destructor_image_count fb, destructor_fb_count fb,
    ?_, ?_, ?_⟩
  · intro hnd v hv
    rw [destructor_view_count, count_some_eq_count_filterMap]
    exact count_nodup_mem_eq_one hnd hv
  · intro hnd p hp
    rw [destructor_image_count, Prod.mk.eta, count_some_eq_count_filterMap]
    exact count_nodup_mem_eq_one hnd hp
  · intro hnd h hh
    rw [destructor_fb_count, count_some_eq_count_filterMap]
    exact count_nodup_mem_eq_one hnd hh

/-- C6 witness: on a fully populated framebuffer with pairwise distinct
handles, the depth primary view, the depth image+allocation pair and the
one cached framebuffer object are each enqueued exactly once. -/
theorem destructor_enqueues_owned_handles_exactly_once_witness :
    (fbDtorProbe.ownedViewSlots.filterMap id).Nodup ∧
    fbDtorProbe.destructorEvents.count (DeleteEvent.queueDeleteImageView 7) = 1 ∧
    fbDtorProbe.destructorEvents.count
      (DeleteEvent.queueDeleteImageAllocation 6 (some 10)) = 1 ∧
    fbDtorProbe.destructorEvents.count (DeleteEvent.queueDeleteFramebuffer 20) = 1 :=
  ⟨by decide,
   (destructor_enqueues_owned_handles_exactly_once fbDtorProbe).2.2.2.1 (by decide) 7
     (by decide),
   (destructor_enqueues_owned_handles_exactly_once fbDtorProbe).2.2.2.2.1 (by decide)
     (6, some 10) (by decide),
   (destructor_enqueues_owned_handles_exactly_once fbDtorProbe).2.2.2.2.2 (by decide) 20
     (by decide)⟩
